import Mathlib

/-!
Verification of the transcript/notes library core of the `vibecoding`
repository (a browser-based audio-transcription assistant).

The repository keeps its state in React `useState` hooks inside `App`
(`src/app.tsx` and the drafts `src/unnamed/part_000`, `src/unnamed/part_001`);
records are built by `transcribeAudio` in `src/services/geminiService.ts` and
updated by `handleGenerateNotes`.  Below, that state is embedded as an explicit
`AppState` value and each handler as a pure state transformer; the asynchronous
gateway calls (`transcribeAudio`, `generateStudyNotes`) are long-running
external calls whose completion outcome is passed to the handler as an
`Except` value, exactly as the `try`/`catch` structure of the source consumes
it.  JavaScript `number` fields (`timestamp`, version counters) only ever hold
small non-negative integers here (`Date.now()`, `0`, `1`, `+1` increments), so
they are embedded as `Nat`; optional (`undefined`-able) fields as `Option`.
-/

/-- Transcript record of the app, from the `TranscriptionResult` interface in
`src/unnamed/part_003` (`types.ts`): `id`, `title`, `content`, `timestamp`,
`courseName`, the two optional notes slots and the two version counters. -/
structure TranscriptionResult where
  id : String
  title : String
  content : String
  timestamp : Nat
  courseName : String
  notesLatest : Option String
  notesPrevious : Option String
  latestVersion : Nat
  previousVersion : Nat
deriving DecidableEq, Repr

/-- Parsed gateway payload `{title, content}` produced by the model response in
`transcribeAudio` (`src/services/geminiService.ts`, `JSON.parse` of the
response text against the `{title, content}` response schema). -/
structure Transcript where
  title : String
  content : String
deriving DecidableEq, Repr

/-- Record constructed by a successful `transcribeAudio` call
(`src/services/geminiService.ts`, lines 92-99):
`{ ...result, id: -trans-${Date.now()}-, timestamp: Date.now(), courseName,
latestVersion: 1, previousVersion: 0 }`.  The spread of the parsed `result`
supplies `title` and `content` only, so `notesLatest` and `notesPrevious`
stay `undefined`.  `now` stands for the `Date.now()` value at completion
time. -/
def transcribeAudioRecord (t : Transcript) (courseName : String) (now : Nat) :
    TranscriptionResult :=
  { id := "trans-" ++ toString now
    title := t.title
    content := t.content
    timestamp := now
    courseName := courseName
    notesLatest := none
    notesPrevious := none
    latestVersion := 1
    previousVersion := 0 }

/-- Updated record built by `handleGenerateNotes` in `src/app.tsx`
(lines 81-87): `{ ...activeResult, notesPrevious: activeResult.notesLatest,
previousVersion: activeResult.latestVersion, notesLatest: notes,
latestVersion: activeResult.latestVersion + 1 }`. -/
def regenerateUpdate (r : TranscriptionResult) (notes : String) :
    TranscriptionResult :=
  { r with
    notesPrevious := r.notesLatest
    previousVersion := r.latestVersion
    notesLatest := some notes
    latestVersion := r.latestVersion + 1 }

/-- Updated record built by `handleGenerateNotes` in the draft
`src/unnamed/part_001` (lines 140-145): the spread sets `notesPrevious`,
`notesLatest` and `latestVersion` but, unlike `src/app.tsx`, contains no
`previousVersion: activeResult.latestVersion` entry, so `previousVersion`
keeps its old value. -/
def regenerateUpdateP1 (r : TranscriptionResult) (notes : String) :
    TranscriptionResult :=
  { r with
    notesPrevious := r.notesLatest
    notesLatest := some notes
    latestVersion := r.latestVersion + 1 }

/-- View mode of the content pane (`useState` in `App`):
`'transcript' | 'latest_notes' | 'previous_notes'`. -/
inductive ViewMode where
  | transcript
  | latest_notes
  | previous_notes
deriving DecidableEq, Repr

/-- App status enum from `types.ts` (`src/unnamed/part_003`). -/
inductive AppStatus where
  | IDLE
  | LOADING
  | PROCESSING
  | COMPLETED
  | ERROR
deriving DecidableEq, Repr

/-- Store-relevant state of `App`: the `library`, `activeResult`, `viewMode`
and `status` `useState` hooks.  The file-upload hooks (`audioFiles`,
`referenceFiles`, `sessionTitle`, progress and menu flags) are upload/view
state outside the record store and are not part of the claims. -/
structure AppState where
  library : List TranscriptionResult
  activeResult : Option TranscriptionResult
  viewMode : ViewMode
  status : AppStatus
deriving DecidableEq, Repr

/-- Initial state of the `App` hooks: empty `library`, `activeResult = null`,
`viewMode = 'transcript'`, `status = IDLE`. -/
def initialState : AppState :=
  { library := [], activeResult := none
    viewMode := .transcript, status := .IDLE }

/-- Completion handling of `startTranscription` (`src/app.tsx`, lines 60-74;
identically `handleStartTranscription` in `src/unnamed/part_000` lines 146-195
and `src/unnamed/part_001` lines 111-133).  `outcome` is the settled result of
the awaited `transcribeAudio` call.  On success the record is prepended
(`setLibrary(prev => [result, ...prev])`), made active and shown; on a thrown
error the `catch` block only sets `status` to `ERROR` (the drafts also raise
an alert), leaving library, active pointer and view untouched. -/
def startTranscription (outcome : Except String TranscriptionResult)
    (s : AppState) : AppState :=
  match outcome with
  | .ok result =>
    { s with
      library := result :: s.library
      activeResult := some result
      viewMode := .transcript
      status := .COMPLETED }
  | .error _ => { s with status := .ERROR }

/-- Completion handling of `handleGenerateNotes` (`src/app.tsx`, lines 76-94).
The guard `if (!activeResult) return;` makes the call a no-op when nothing is
active.  Otherwise `outcome` is the settled result of the awaited
`generateStudyNotes` call: on success the shifted record replaces every
library entry with its id (`prev.map(i => i.id === updated.id ? updated : i)`)
and becomes active; a thrown error leaves all store state unchanged (the
handler only resets the `isGeneratingNotes` flag in `finally`). -/
def handleGenerateNotes (outcome : Except String String) (s : AppState) :
    AppState :=
  match s.activeResult with
  | none => s
  | some active =>
    match outcome with
    | .error _ => s
    | .ok notes =>
      let updated := regenerateUpdate active notes
      { s with
        activeResult := some updated
        library := s.library.map fun i => if i.id = updated.id then updated else i
        viewMode := .latest_notes }

/-- Completion handling of `handleGenerateNotes` in the draft
`src/unnamed/part_001` (lines 135-154): same structure as the `src/app.tsx`
handler but building the record with `regenerateUpdateP1`. -/
def handleGenerateNotesP1 (outcome : Except String String) (s : AppState) :
    AppState :=
  match s.activeResult with
  | none => s
  | some active =>
    match outcome with
    | .error _ => s
    | .ok notes =>
      let updated := regenerateUpdateP1 active notes
      { s with
        activeResult := some updated
        library := s.library.map fun i => if i.id = updated.id then updated else i
        viewMode := .latest_notes }

/-- Whether `handleGenerateNotes` reaches its gateway call: in the source the
`await generateStudyNotes(...)` sits after the `if (!activeResult) return;`
guard, so the gateway is invoked exactly when a record is active. -/
def generateNotesGatewayCalled (s : AppState) : Bool :=
  s.activeResult.isSome

/-- JavaScript `a || b` on an optional string: `undefined` and the empty
string are falsy, anything else is returned as is. -/
def jsOrElse (t : Option String) (fallback : String) : String :=
  match t with
  | none => fallback
  | some s => if s = "" then fallback else s

/-- Result of a successful `generateStudyNotes` call in
`src/services/geminiService.ts` (line 116): `return response.text || ""`,
where `response.text` may be `undefined`. -/
def generateStudyNotesResult (responseText : Option String) : String :=
  jsOrElse responseText ""

/-- Result of a successful `generateStudyNotes` call in the service draft
embedded in `src/app.tsx` (line 679): the fallback is the fixed placeholder
message instead of the empty string. -/
def generateStudyNotesResultDraft (responseText : Option String) : String :=
  jsOrElse responseText "無法產生筆記內容。"

/-- Library lookup by id, as the spec's "each must resolve to an existing
record" (first match, like the `i.id === updated.id` comparisons in the
source). -/
def lookupId (lib : List TranscriptionResult) (i : String) :
    Option TranscriptionResult :=
  lib.find? fun r => r.id = i

/-- Modelled from the spec: no merge operation exists anywhere under `src/`
(no draft of `App` implements spec section 4.1 `merge`), so the delimiter
between merged sources is taken from the spec's words "separated by a clear
delimiter". -/
def mergeDelimiter : String := "\n\n----\n\n"

/-- Modelled from the spec: content of a merged record, spec section 4.1 -
"the concatenation of each source record's title and content, separated by a
clear delimiter, in the given order". -/
def mergeContent (srcs : List TranscriptionResult) : String :=
  String.intercalate mergeDelimiter (srcs.map fun r => r.title ++ "\n" ++ r.content)

/-- Modelled from the spec: `merge(orderedIds)` of spec section 4.1, absent
from `src/`.  "Precondition: at least 2 ids, each must resolve to an existing
record"; on violation "no-op, signaled as invalid operation".  The new record
"takes `courseName` from the first id in the sequence, gets a fresh id,
`timestamp` = now, `latestVersion = 0`, `previousVersion = 0`, no notes.
Inserted at the front of the library and becomes active.  Source records are
NOT deleted".  The spec leaves the fresh id and the title of the merged record
unspecified, so both are parameters here. -/
def merge (orderedIds : List String) (newId newTitle : String) (now : Nat)
    (s : AppState) : Except String AppState :=
  if orderedIds.length < 2 then .error "invalid-operation"
  else
    match orderedIds.mapM (lookupId s.library) with
    | none => .error "invalid-operation"
    | some srcs =>
      match srcs with
      | [] => .error "invalid-operation"
      | first :: _ =>
        let newRec : TranscriptionResult :=
          { id := newId
            title := newTitle
            content := mergeContent srcs
            timestamp := now
            courseName := first.courseName
            notesLatest := none
            notesPrevious := none
            latestVersion := 0
            previousVersion := 0 }
        .ok { s with library := newRec :: s.library, activeResult := some newRec }

/-- Reachable store states: the empty initial state, followed by any sequence
of settled `transcribeAudio` completions (successful ones always built by
`transcribeAudioRecord`) and settled `generateStudyNotes` completions handled
by either draft of `handleGenerateNotes`. -/
inductive Reachable : AppState → Prop where
  | init : Reachable initialState
  | createOk (t : Transcript) (c : String) (now : Nat) {s : AppState} :
      Reachable s →
      Reachable (startTranscription (Except.ok (transcribeAudioRecord t c now)) s)
  | createErr (e : String) {s : AppState} :
      Reachable s → Reachable (startTranscription (Except.error e) s)
  | regen (o : Except String String) {s : AppState} :
      Reachable s → Reachable (handleGenerateNotes o s)
  | regenP1 (o : Except String String) {s : AppState} :
      Reachable s → Reachable (handleGenerateNotesP1 o s)

/-- Version sanity of a single record: `latestVersion >= previousVersion`
(`>= 0` is inherent in the `Nat` embedding). -/
def recVersionsOk (r : TranscriptionResult) : Prop :=
  r.previousVersion ≤ r.latestVersion

/-- Version sanity of every record of a state, in the library and active. -/
def stateVersionsOk (s : AppState) : Prop :=
  (∀ r ∈ s.library, recVersionsOk r) ∧
    (∀ r, s.activeResult = some r → recVersionsOk r)

theorem stateVersionsOk_of_reachable {s : AppState} (h : Reachable s) :
    stateVersionsOk s := by
  induction h with
  | init => exact ⟨fun r hr => absurd hr (List.not_mem_nil r), fun r hr => by
      simp [initialState] at hr⟩
  | createOk t c now _ ih =>
    refine ⟨fun r hr => ?_, fun r hr => ?_⟩
    · rcases List.mem_cons.mp hr with h1 | h2
      · subst h1; exact Nat.zero_le _
      · exact ih.1 r h2
    · cases hr; exact Nat.zero_le _
  | createErr e _ ih => exact ih
  | regen o _ ih =>
    rename_i s' _
    unfold handleGenerateNotes
    cases hact : s'.activeResult with
    | none => simpa [hact] using ih
    | some active =>
      cases o with
      | error e => simpa [hact] using ih
      | ok notes =>
        simp only [hact]
        refine ⟨fun r hr => ?_, fun r hr => ?_⟩
        · rcases List.mem_map.mp hr with ⟨i, hi, hir⟩
          by_cases hid : i.id = (regenerateUpdate active notes).id
          · simp only [hid, if_pos rfl] at hir
            subst hir
            exact Nat.le_succ _
          · simp only [if_neg hid] at hir
            subst hir
            exact ih.1 i hi
        · cases hr
          exact Nat.le_succ _
  | regenP1 o _ ih =>
    rename_i s' _
    unfold handleGenerateNotesP1
    cases hact : s'.activeResult with
    | none => simpa [hact] using ih
    | some active =>
      cases o with
      | error e => simpa [hact] using ih
      | ok notes =>
        simp only [hact]
        have hactiveOk : recVersionsOk active := ih.2 active hact
        have hup : recVersionsOk (regenerateUpdateP1 active notes) :=
          Nat.le_succ_of_le hactiveOk
        refine ⟨fun r hr => ?_, fun r hr => ?_⟩
        · rcases List.mem_map.mp hr with ⟨i, hi, hir⟩
          by_cases hid : i.id = (regenerateUpdateP1 active notes).id
          · simp only [hid, if_pos rfl] at hir
            subst hir
            exact hup
          · simp only [if_neg hid] at hir
            subst hir
            exact ih.1 i hi
        · cases hr
          exact hup

/-- Record produced by repeatedly applying the `src/app.tsx`
`handleGenerateNotes` note shift to a record, once per successful
`generateStudyNotes` result in `gs` (in order). -/
def regenIter (r : TranscriptionResult) (gs : List String) : TranscriptionResult :=
  gs.foldl regenerateUpdate r

theorem regenIter_versions (gs : List String) : ∀ r : TranscriptionResult,
    (regenIter r gs).latestVersion = r.latestVersion + gs.length ∧
    (regenIter r gs).previousVersion =
      (if gs.isEmpty then r.previousVersion
       else r.latestVersion + gs.length - 1) := by
  induction gs with
  | nil => intro r; simp [regenIter]
  | cons g gs ih =>
    intro r
    have h := ih (regenerateUpdate r g)
    have hl : (regenerateUpdate r g).latestVersion = r.latestVersion + 1 := rfl
    have hp : (regenerateUpdate r g).previousVersion = r.latestVersion := rfl
    simp only [regenIter, List.foldl_cons] at h ⊢
    refine ⟨?_, ?_⟩
    · rw [h.1, hl, List.length_cons]; omega
    · rw [h.2, hl, hp, List.length_cons]
      cases gs with
      | nil => simp
      | cons g' gs' =>
        simp only [List.isEmpty_cons, Bool.false_eq_true, if_false, List.length_cons]
        omega

/-- C1: counterexample.  The record built by `transcribeAudio`
(`src/services/geminiService.ts` line 97) has `latestVersion = 1` at creation,
not `0` as the claim states, and after one successful regeneration its
`previousVersion` is `1`, not `0`. -/
theorem C1_counterexample :
    (transcribeAudioRecord ⟨"標題", "老師：內容"⟩ "印度佛教史" 1700000000000).latestVersion ≠ 0 ∧
    (regenIter (transcribeAudioRecord ⟨"標題", "老師：內容"⟩ "印度佛教史" 1700000000000)
      ["第一版筆記"]).previousVersion ≠ 0 := by
  decide

/-- C1 (amended): every record returned by create has `latestVersion = 1`,
`previousVersion = 0` and no notes (`notesLatest` and `notesPrevious`
undefined); consequently after exactly `N` successful `regenerateNotes` calls
on it, `latestVersion = N + 1` and `previousVersion = N`. -/
theorem C1_create_version_counters (t : Transcript) (c : String) (now : Nat)
    (gs : List String) :
    (transcribeAudioRecord t c now).latestVersion = 1 ∧
    (transcribeAudioRecord t c now).previousVersion = 0 ∧
    (transcribeAudioRecord t c now).notesLatest = none ∧
    (transcribeAudioRecord t c now).notesPrevious = none ∧
    (regenIter (transcribeAudioRecord t c now) gs).latestVersion = gs.length + 1 ∧
    (regenIter (transcribeAudioRecord t c now) gs).previousVersion = gs.length := by
  have h := regenIter_versions gs (transcribeAudioRecord t c now)
  have hl : (transcribeAudioRecord t c now).latestVersion = 1 := rfl
  have hp : (transcribeAudioRecord t c now).previousVersion = 0 := rfl
  refine ⟨rfl, rfl, rfl, rfl, ?_, ?_⟩
  · rw [h.1, hl]; omega
  · rw [h.2, hl, hp]
    cases gs with
    | nil => simp
    | cons g gs' =>
      simp only [List.isEmpty_cons, Bool.false_eq_true, if_false, List.length_cons]
      omega

/-- C2: counterexample.  The `handleGenerateNotes` of `src/unnamed/part_001`
(lines 140-145) omits the `previousVersion := latestVersion` part of the
two-slot shift: on a record with `latestVersion = 2`, `previousVersion = 1`
(obtained by one `src/app.tsx` regeneration of a fresh record), its update
leaves `previousVersion` at `1` instead of the old `latestVersion` `2`. -/
theorem C2_counterexample :
    (regenerateUpdateP1
        (regenerateUpdate (transcribeAudioRecord ⟨"甲", "甲文"⟩ "課" 3) "N1")
        "N2").previousVersion ≠
      (regenerateUpdate (transcribeAudioRecord ⟨"甲", "甲文"⟩ "課" 3) "N1").latestVersion := by
  decide

/-- C2 (amended): for every record `r` and successful regeneration result `g`,
the `src/app.tsx` handler performs the full atomic two-slot shift (new
`notesPrevious` = old `notesLatest`, new `previousVersion` = old
`latestVersion`, new `notesLatest` = `g`, new `latestVersion` = old
`latestVersion + 1`); the `src/unnamed/part_001` draft performs the same shift
except that `previousVersion` keeps its old value. -/
theorem C2_regenerate_two_slot_shift (r : TranscriptionResult) (g : String) :
    (regenerateUpdate r g).notesPrevious = r.notesLatest ∧
    (regenerateUpdate r g).previousVersion = r.latestVersion ∧
    (regenerateUpdate r g).notesLatest = some g ∧
    (regenerateUpdate r g).latestVersion = r.latestVersion + 1 ∧
    (regenerateUpdateP1 r g).notesPrevious = r.notesLatest ∧
    (regenerateUpdateP1 r g).previousVersion = r.previousVersion ∧
    (regenerateUpdateP1 r g).notesLatest = some g ∧
    (regenerateUpdateP1 r g).latestVersion = r.latestVersion + 1 :=
  ⟨rfl, rfl, rfl, rfl, rfl, rfl, rfl, rfl⟩

/-- C3: failing input.  `transcribeAudio` assigns ids as
`trans-` + `Date.now()` (`src/services/geminiService.ts` line 94), so two
create calls completing in the same millisecond yield two distinct records
with the identical id `trans-1700000000000`, violating the claimed lifetime
uniqueness (and the service draft embedded in `src/app.tsx`, line 659, even
assigns the id `''` to every record). -/
theorem C3_id_collision :
    (transcribeAudioRecord ⟨"第一講", "內容一"⟩ "印度佛教史" 1700000000000).id =
      (transcribeAudioRecord ⟨"第二講", "內容二"⟩ "印度佛教史" 1700000000000).id ∧
    (transcribeAudioRecord ⟨"第一講", "內容一"⟩ "印度佛教史" 1700000000000) ≠
      (transcribeAudioRecord ⟨"第二講", "內容二"⟩ "印度佛教史" 1700000000000) := by
  decide

/-- Pointwise `latestVersion` non-decrease between an old and a new library
(same length, position by position). -/
def versionsNondecreasing (old new : List TranscriptionResult) : Prop :=
  List.Forall₂ (fun a b => a.latestVersion ≤ b.latestVersion) old new

theorem versionsNondecreasing_map (f : TranscriptionResult → TranscriptionResult)
    (l : List TranscriptionResult)
    (h : ∀ x ∈ l, x.latestVersion ≤ (f x).latestVersion) :
    versionsNondecreasing l (l.map f) := by
  induction l with
  | nil => exact List.Forall₂.nil
  | cons a l ih =>
    exact List.Forall₂.cons (h a (List.mem_cons_self a l))
      (ih fun x hx => h x (List.mem_cons_of_mem a hx))

/-- Reachable state exhibiting the id collision of C3: a record created at
millisecond 7 and regenerated twice (`latestVersion = 3`) next to a second
record created at the same millisecond 7 (so with the same id). -/
def collisionState : AppState :=
  startTranscription (Except.ok (transcribeAudioRecord ⟨"乙", "乙文"⟩ "課" 7))
    (handleGenerateNotes (Except.ok "N2")
      (handleGenerateNotes (Except.ok "N1")
        (startTranscription (Except.ok (transcribeAudioRecord ⟨"甲", "甲文"⟩ "課" 7))
          initialState)))

/-- C4: counterexample to the monotonicity half of the claim.  In the
reachable state `collisionState` (its two records share the id `trans-7`
because of the same-millisecond creation bug of C3), a successful
`regenerateNotes` on the active record rewrites both same-id library entries,
dropping the second entry's `latestVersion` from `3` to `2`. -/
theorem C4_counterexample :
    Reachable collisionState ∧
    collisionState.library.map TranscriptionResult.latestVersion = [1, 3] ∧
    (handleGenerateNotes (Except.ok "N3") collisionState).library.map
      TranscriptionResult.latestVersion = [2, 2] := by
  refine ⟨?_, by decide, by decide⟩
  exact Reachable.createOk _ _ _ (Reachable.regen _ (Reachable.regen _
    (Reachable.createOk _ _ _ Reachable.init)))

/-- C4 (amended): in every reachable state every record (in the library and
the active one) satisfies `latestVersion >= previousVersion` (`>= 0` holds by
the `Nat` embedding); each regeneration strictly increases the updated
record's own `latestVersion` (both handler drafts); a successful regeneration
never decreases any library entry's `latestVersion` provided the library's
ids are pairwise distinct (which the C3 creation bug can violate); failed
regenerations and transcription completions leave existing library entries
untouched. -/
theorem C4_version_invariant :
    (∀ s : AppState, Reachable s →
      (∀ r ∈ s.library, r.previousVersion ≤ r.latestVersion) ∧
        (∀ r, s.activeResult = some r → r.previousVersion ≤ r.latestVersion)) ∧
    (∀ (r : TranscriptionResult) (g : String),
      r.latestVersion < (regenerateUpdate r g).latestVersion ∧
        r.latestVersion < (regenerateUpdateP1 r g).latestVersion) ∧
    (∀ (s : AppState) (a : TranscriptionResult) (g : String),
      s.activeResult = some a → a ∈ s.library →
      (s.library.map TranscriptionResult.id).Nodup →
      versionsNondecreasing s.library
        (handleGenerateNotes (Except.ok g) s).library ∧
      versionsNondecreasing s.library
        (handleGenerateNotesP1 (Except.ok g) s).library) ∧
    (∀ (s : AppState) (e : String),
      (handleGenerateNotes (Except.error e) s).library = s.library ∧
        (handleGenerateNotesP1 (Except.error e) s).library = s.library) ∧
    (∀ (s : AppState) (o : Except String TranscriptionResult),
      s.library <:+ (startTranscription o s).library) := by
  refine ⟨?_, ?_, ?_, ?_, ?_⟩
  · exact fun s h => stateVersionsOk_of_reachable h
  · exact fun r g => ⟨Nat.lt_succ_self _, Nat.lt_succ_self _⟩
  · intro s a g hact hmem hnodup
    constructor
    · simp only [handleGenerateNotes, hact]
      refine versionsNondecreasing_map _ _ fun x hx => ?_
      by_cases hid : x.id = (regenerateUpdate a g).id
      · have hxa : x = a := List.inj_on_of_nodup_map hnodup hx hmem hid
        subst hxa
        simp only [if_pos hid]
        exact Nat.le_succ _
      · simp only [if_neg hid]
        exact Nat.le_refl _
    · simp only [handleGenerateNotesP1, hact]
      refine versionsNondecreasing_map _ _ fun x hx => ?_
      by_cases hid : x.id = (regenerateUpdateP1 a g).id
      · have hxa : x = a := List.inj_on_of_nodup_map hnodup hx hmem hid
        subst hxa
        simp only [if_pos hid]
        exact Nat.le_succ _
      · simp only [if_neg hid]
        exact Nat.le_refl _
  · intro s e
    constructor
    · unfold handleGenerateNotes
      cases hact : s.activeResult <;> rfl
    · unfold handleGenerateNotesP1
      cases hact : s.activeResult <;> rfl
  · intro s o
    cases o with
    | ok r => exact List.suffix_cons r s.library
    | error e => exact List.suffix_refl s.library

/-- Example transcript used by the concrete witness states below. -/
def exTranscript : Transcript := ⟨"示例講座", "老師：示例內容"⟩

/-- Example record created at millisecond 5. -/
def exRecord : TranscriptionResult := transcribeAudioRecord exTranscript "印度佛教史" 5

/-- State after one successful transcription. -/
def exState1 : AppState := startTranscription (Except.ok exRecord) initialState

/-- State after one successful transcription and one successful note
regeneration. -/
def exState2 : AppState := handleGenerateNotes (Except.ok "N1") exState1

/-- The regenerated example record (the single library entry of `exState2`). -/
def exRecordV2 : TranscriptionResult := regenerateUpdate exRecord "N1"

/-- C4: witness.  The invariant and the monotonicity statement instantiated in
the concrete reachable state `exState2`. -/
theorem C4_version_invariant_witness :
    exRecordV2.previousVersion ≤ exRecordV2.latestVersion ∧
    versionsNondecreasing exState2.library
      (handleGenerateNotes (Except.ok "N2") exState2).library :=
  ⟨(C4_version_invariant.1 exState2
      (Reachable.regen _ (Reachable.createOk _ _ _ Reachable.init))).2
      exRecordV2 rfl,
   (C4_version_invariant.2.2.1 exState2 exRecordV2 "N2" rfl (by decide)
      (by decide)).1⟩

/-- C5: when a gateway call fails (the awaited `transcribeAudio` or
`generateStudyNotes` promise rejects), the store is unchanged: the library
holds exactly the records it held before, the active pointer is unchanged and
no partial or empty record is inserted.  `startTranscription` only sets
`status` to `ERROR` in its `catch`; both `handleGenerateNotes` drafts leave
the whole store state exactly as it was. -/
theorem C5_gateway_failure_no_mutation (s : AppState) (e : String) :
    (startTranscription (Except.error e) s).library = s.library ∧
    (startTranscription (Except.error e) s).activeResult = s.activeResult ∧
    (startTranscription (Except.error e) s).viewMode = s.viewMode ∧
    handleGenerateNotes (Except.error e) s = s ∧
    handleGenerateNotesP1 (Except.error e) s = s := by
  refine ⟨rfl, rfl, rfl, ?_, ?_⟩
  · unfold handleGenerateNotes
    cases s.activeResult <;> rfl
  · unfold handleGenerateNotesP1
    cases s.activeResult <;> rfl

/-- C6: every successful create prepends the new record to the library
(newest-first, with all prior records unchanged in order) and makes it the
active record (`setLibrary(prev => [result, ...prev]); setActiveResult(result)`
in `src/app.tsx` lines 66-67 and `src/unnamed/part_001` lines 123-124). -/
theorem C6_create_prepends_and_activates (s : AppState)
    (r : TranscriptionResult) :
    (startTranscription (Except.ok r) s).library = r :: s.library ∧
    (startTranscription (Except.ok r) s).activeResult = some r :=
  ⟨rfl, rfl⟩

/-- C7: a successful regeneration of the active record `a` keeps `id`,
`title`, `content`, `courseName` and `timestamp` unchanged, replaces exactly
the occurrence of `a` in the library in place (every other record unchanged,
positions preserved - stated as a pointwise map that touches only the entry
equal to `a`; the id-uniqueness hypothesis reflects the spec's id invariant),
and points the active pointer at the updated record. -/
theorem C7_regenerate_frame (s : AppState) (a : TranscriptionResult)
    (g : String) (hact : s.activeResult = some a) (hmem : a ∈ s.library)
    (hnodup : (s.library.map TranscriptionResult.id).Nodup) :
    (regenerateUpdate a g).id = a.id ∧
    (regenerateUpdate a g).title = a.title ∧
    (regenerateUpdate a g).content = a.content ∧
    (regenerateUpdate a g).courseName = a.courseName ∧
    (regenerateUpdate a g).timestamp = a.timestamp ∧
    (handleGenerateNotes (Except.ok g) s).activeResult =
      some (regenerateUpdate a g) ∧
    (handleGenerateNotes (Except.ok g) s).library =
      s.library.map fun i => if i = a then regenerateUpdate a g else i := by
  refine ⟨rfl, rfl, rfl, rfl, rfl, ?_, ?_⟩
  · simp only [handleGenerateNotes, hact]
  · simp only [handleGenerateNotes, hact]
    refine List.map_congr_left fun x hx => ?_
    by_cases hid : x.id = (regenerateUpdate a g).id
    · have hxa : x = a := List.inj_on_of_nodup_map hnodup hx hmem hid
      subst hxa
      rw [if_pos hid, if_pos rfl]
    · have hxa : ¬x = a := fun hc => hid (by rw [hc]; rfl)
      rw [if_neg hid, if_neg hxa]

/-- Second example record, created at millisecond 9 (distinct id from
`exRecord`). -/
def exRecordB : TranscriptionResult := transcribeAudioRecord ⟨"乙講", "乙文"⟩ "禪修專題" 9

/-- State with the two-record library `[exRecordB, exRecord]` and `exRecordB`
active. -/
def exStateTwo : AppState := startTranscription (Except.ok exRecordB) exState1

/-- C7: witness.  The frame property instantiated at the concrete two-record
state `exStateTwo` with the active record `exRecordB`. -/
theorem C7_regenerate_frame_witness :
    (regenerateUpdate exRecordB "N7").id = exRecordB.id ∧
    (regenerateUpdate exRecordB "N7").title = exRecordB.title ∧
    (regenerateUpdate exRecordB "N7").content = exRecordB.content ∧
    (regenerateUpdate exRecordB "N7").courseName = exRecordB.courseName ∧
    (regenerateUpdate exRecordB "N7").timestamp = exRecordB.timestamp ∧
    (handleGenerateNotes (Except.ok "N7") exStateTwo).activeResult =
      some (regenerateUpdate exRecordB "N7") ∧
    (handleGenerateNotes (Except.ok "N7") exStateTwo).library =
      exStateTwo.library.map
        fun i => if i = exRecordB then regenerateUpdate exRecordB "N7" else i :=
  C7_regenerate_frame exStateTwo exRecordB "N7" rfl (by decide) (by decide)

/-- C8: a merge on at least two resolvable ids is additive - every record of
the old library (in particular every source record the ids resolve to) is
still in the library afterwards; merge never removes or rewrites its
sources. -/
theorem C8_merge_preserves_sources (orderedIds : List String)
    (newId newTitle : String) (now : Nat) (s s' : AppState)
    (h : merge orderedIds newId newTitle now s = Except.ok s') :
    (∀ r ∈ s.library, r ∈ s'.library) ∧
    (∀ i ∈ orderedIds, ∀ r, lookupId s.library i = some r → r ∈ s'.library) := by
  unfold merge at h
  by_cases hlen : orderedIds.length < 2
  · rw [if_pos hlen] at h
    cases h
  · rw [if_neg hlen] at h
    cases hsrcs : orderedIds.mapM (lookupId s.library) with
    | none => rw [hsrcs] at h; cases h
    | some srcs =>
      rw [hsrcs] at h
      cases srcs with
      | nil => cases h
      | cons first rest =>
        simp only [Except.ok.injEq] at h
        subst h
        refine ⟨fun r hr => List.mem_cons_of_mem _ hr, fun i _ r hfind => ?_⟩
        exact List.mem_cons_of_mem _ (List.mem_of_find?_eq_some hfind)

/-- Result state of a concrete merge of the two records of `exStateTwo`
(caller order: oldest first). -/
def exMergedState : AppState :=
  match merge ["trans-5", "trans-9"] "merge-1" "合併紀錄" 11 exStateTwo with
  | .ok s => s
  | .error _ => initialState

/-- C8: witness.  Merging the two records of `exStateTwo` succeeds and the
source record `exRecord` (resolved from the first id) is still in the
resulting library. -/
theorem C8_merge_preserves_sources_witness : exRecord ∈ exMergedState.library :=
  (C8_merge_preserves_sources ["trans-5", "trans-9"] "merge-1" "合併紀錄" 11
      exStateTwo exMergedState rfl).2 "trans-5" (by decide) exRecord (by decide)

/-- C9: a successful `generateStudyNotes` always resolves to a defined string:
when the backend response carries no usable text (`response.text` undefined or
empty - both falsy for the JavaScript `||`), `src/services/geminiService.ts`
returns the empty string and the draft embedded in `src/app.tsx` returns its
fixed placeholder message; otherwise the text itself is returned.
Consequently the regenerated record's `notesLatest` is always a defined
(`some`) string, possibly empty. -/
theorem C9_notes_result_defined (t : Option String) (r : TranscriptionResult) :
    ((t = none ∨ t = some "") →
      generateStudyNotesResult t = "" ∧
        generateStudyNotesResultDraft t = "無法產生筆記內容。") ∧
    (∀ x : String, t = some x → x ≠ "" → generateStudyNotesResult t = x) ∧
    (regenerateUpdate r (generateStudyNotesResult t)).notesLatest =
      some (generateStudyNotesResult t) := by
  refine ⟨?_, ?_, rfl⟩
  · rintro (rfl | rfl)
    · exact ⟨rfl, rfl⟩
    · exact ⟨rfl, rfl⟩
  · rintro x rfl hx
    simp [generateStudyNotesResult, jsOrElse, hx]

/-- C9: witness.  With an empty backend response, both variants return their
fixed fallback and the updated record's `notesLatest` is defined. -/
theorem C9_notes_result_defined_witness :
    (generateStudyNotesResult none = "" ∧
      generateStudyNotesResultDraft none = "無法產生筆記內容。") ∧
    (regenerateUpdate exRecord (generateStudyNotesResult none)).notesLatest =
      some (generateStudyNotesResult none) :=
  ⟨(C9_notes_result_defined none exRecord).1 (Or.inl rfl),
   (C9_notes_result_defined none exRecord).2.2⟩

/-- C10: when no record is active, invoking note generation is a complete
no-op: the guard `if (!activeResult) return;` returns before the gateway call,
so the store state (library, every record, active pointer, view, status) is
returned unchanged and the gateway is not invoked - in both handler
drafts. -/
theorem C10_no_active_noop (s : AppState) (o : Except String String)
    (h : s.activeResult = none) :
    handleGenerateNotes o s = s ∧ handleGenerateNotesP1 o s = s ∧
      generateNotesGatewayCalled s = false := by
  refine ⟨?_, ?_, ?_⟩
  · unfold handleGenerateNotes
    rw [h]
  · unfold handleGenerateNotesP1
    rw [h]
  · unfold generateNotesGatewayCalled
    rw [h]
    rfl

/-- C10: witness.  Note generation on the initial state (no active record) is
a no-op and performs no gateway call. -/
theorem C10_no_active_noop_witness :
    handleGenerateNotes (Except.ok "N") initialState = initialState ∧
      handleGenerateNotesP1 (Except.ok "N") initialState = initialState ∧
      generateNotesGatewayCalled initialState = false :=
  C10_no_active_noop initialState (Except.ok "N") rfl

/-- C7: counterexample.  In the reachable state `collisionState` the record at
library position 1 is not the active record, yet a successful regeneration of
the active record rewrites it too, because both records carry the same id
(the C3 creation bug) and the update maps over every entry whose id matches:
so "every other record in the library is unchanged" fails on the code as
stated. -/
theorem C7_counterexample :
    Reachable collisionState ∧
    collisionState.library.get? 1 ≠ collisionState.activeResult ∧
    (handleGenerateNotes (Except.ok "N3") collisionState).library.get? 1 ≠
      collisionState.library.get? 1 := by
  refine ⟨?_, by decide, by decide⟩
  exact Reachable.createOk _ _ _ (Reachable.regen _ (Reachable.regen _
    (Reachable.createOk _ _ _ Reachable.init)))
